import Mathlib

/-!
Shallow embedding of `src/queue-stopping/src/main.rs`: a winit/wgpu
presentation loop that polls a raw-data video receiver and blits each
received GPU-resident frame texture to a window surface.

The loop body (`main.rs` lines 162–199), the blit-pipeline construction
(`create_render_pipeline`, lines 202–279) and the per-frame draw
(`render_texture`, lines 281–343) are translated as pure functions that
emit an explicit trace of the GPU / windowing actions they perform.
External-environment outcomes (what `video_receiver.try_recv()` returns,
whether `surface.get_current_texture()` succeeds) are supplied as inputs
of each `RedrawRequested` event.
-/

namespace QueueStopping

/-- `wgpu::TextureFormat`, restricted to variants this program can meet. -/
inductive TextureFormat where
  | Bgra8UnormSrgb
  | Rgba8UnormSrgb
  | Bgra8Unorm
  | Rgba8Unorm
  | Rgba16Float
deriving DecidableEq, Repr

/-- `wgpu::PresentMode` (the program uses `Fifo`). -/
inductive PresentMode where
  | Fifo
  | Immediate
  | Mailbox
deriving DecidableEq, Repr

/-- `wgpu::CompositeAlphaMode` (the program uses `Auto`). -/
inductive CompositeAlphaMode where
  | Auto
  | Opaque
  | PreMultiplied
deriving DecidableEq, Repr

/-- `wgpu::TextureUsages`, modeled as the single flag the program uses. -/
inductive TextureUsages where
  | RENDER_ATTACHMENT
deriving DecidableEq, Repr

/-- `wgpu::SurfaceConfiguration` with the fields set at `main.rs` 144–153. -/
structure SurfaceConfiguration where
  usage : TextureUsages
  format : TextureFormat
  width : Nat
  height : Nat
  present_mode : PresentMode
  desired_maximum_frame_latency : Nat
  alpha_mode : CompositeAlphaMode
  view_formats : List TextureFormat
deriving DecidableEq, Repr

/-- `wgpu::AddressMode`; its `Default` is `ClampToEdge`. -/
inductive AddressMode where
  | ClampToEdge
  | Repeat
  | MirrorRepeat
deriving DecidableEq, Repr

/-- `wgpu::FilterMode`; its `Default` is `Nearest`. -/
inductive FilterMode where
  | Nearest
  | Linear
deriving DecidableEq, Repr

/-- The sampling-relevant fields of `wgpu::SamplerDescriptor`. -/
structure SamplerDescriptor where
  address_mode_u : AddressMode
  address_mode_v : AddressMode
  address_mode_w : AddressMode
  mag_filter : FilterMode
  min_filter : FilterMode
  mipmap_filter : FilterMode
deriving DecidableEq, Repr

/-- `wgpu::SamplerDescriptor::default()`: every address mode is
`AddressMode::ClampToEdge` and every filter is `FilterMode::Nearest`
(the `Default` values of those wgpu enums). -/
def SamplerDescriptor.wgpuDefault : SamplerDescriptor :=
  { address_mode_u := AddressMode.ClampToEdge
    address_mode_v := AddressMode.ClampToEdge
    address_mode_w := AddressMode.ClampToEdge
    mag_filter := FilterMode.Nearest
    min_filter := FilterMode.Nearest
    mipmap_filter := FilterMode.Nearest }

/-- The `RenderState` struct (`main.rs` 40–44): the fixed blit-pipeline
objects built once at startup.  The pipeline and bind-group layout are
fixed values; the data the claims inspect are the color-target format and
the sampler descriptor. -/
structure RenderState where
  target_format : TextureFormat
  sampler : SamplerDescriptor
deriving DecidableEq, Repr

/-- `create_render_pipeline` (`main.rs` 202–279): compiles the fixed
shader, builds the two-entry bind-group layout and the pipeline whose
single color target uses `surface_format`, and creates the sampler with
`wgpu::SamplerDescriptor::default()` (line 272). -/
def create_render_pipeline (surface_format : TextureFormat) : RenderState :=
  { target_format := surface_format
    sampler := SamplerDescriptor.wgpuDefault }

/-- `compositor_render::FrameData` (external crate): the payload of a
frame is either a GPU-resident RGBA texture (modeled by a numeric
handle) or a CPU-side raw-bytes variant.  `render_texture` only
distinguishes the `Rgba8UnormWgpuTexture` variant from all others. -/
inductive FrameData where
  | Rgba8UnormWgpuTexture (texture : Nat)
  | PlanarYuv420 (bytes : List Nat)
  | InterleavedYuv422 (bytes : List Nat)
deriving DecidableEq, Repr

/-- `compositor_render::Frame`: a payload plus a presentation timestamp. -/
structure Frame where
  data : FrameData
  ptsMs : Nat
deriving DecidableEq, Repr

/-- `wgpu::LoadOp` of a render-pass color attachment. -/
inductive LoadOp where
  | Clear
  | Load
deriving DecidableEq, Repr

/-- `wgpu::StoreOp` of a render-pass color attachment. -/
inductive StoreOp where
  | Store
  | Discard
deriving DecidableEq, Repr

/-- One GPU-API action performed by `render_texture`, in program order. -/
inductive GpuAction where
  | logError (msg : String)
  | createTextureView (texture : Nat)
  | createBindGroup (texture : Nat) (sampler : SamplerDescriptor)
  | acquireSurfaceTexture
  | createSurfaceView
  | createCommandEncoder
  | beginRenderPass (load : LoadOp) (store : StoreOp)
  | setPipeline
  | setBindGroup
  | draw (vertices : Nat) (instances : Nat)
  | endRenderPass
  | submit
  | present
deriving DecidableEq, Repr

/-- Outcome of one `render_texture` call: `skipped` is the early `return`
on a payload-format mismatch, `panicked` is the `.expect` on a failed
`surface.get_current_texture()`, `completed` is the normal path.  Each
carries the trace of actions performed before the outcome. -/
inductive RenderResult where
  | skipped (trace : List GpuAction)
  | panicked (trace : List GpuAction)
  | completed (trace : List GpuAction)
deriving DecidableEq, Repr

/-- The action trace of a `RenderResult`. -/
def RenderResult.trace : RenderResult → List GpuAction
  | .skipped t => t
  | .panicked t => t
  | .completed t => t

/-- `render_texture` (`main.rs` 281–343).  `acquireOk` models whether
`surface.get_current_texture()` succeeds; on failure the source calls
`.expect("Failed to acquire next swap chain texture")`, i.e. panics.
The `let ... else` at lines 288–291 logs and returns before any GPU work
when the payload is not `Rgba8UnormWgpuTexture`. -/
def render_texture (frame : Frame) (acquireOk : Bool) (rs : RenderState) :
    RenderResult :=
  match frame.data with
  | FrameData.Rgba8UnormWgpuTexture texture =>
      let pre := [GpuAction.createTextureView texture,
                  GpuAction.createBindGroup texture rs.sampler]
      if acquireOk then
        RenderResult.completed (pre ++
          [GpuAction.acquireSurfaceTexture,
           GpuAction.createSurfaceView,
           GpuAction.createCommandEncoder,
           GpuAction.beginRenderPass LoadOp.Clear StoreOp.Store,
           GpuAction.setPipeline,
           GpuAction.setBindGroup,
           GpuAction.draw 3 1,
           GpuAction.endRenderPass,
           GpuAction.submit,
           GpuAction.present])
      else
        RenderResult.panicked (pre ++ [GpuAction.acquireSurfaceTexture])
  | _ => RenderResult.skipped
      [GpuAction.logError "Unexpected frame data format"]

/-- What `video_receiver.try_recv()` yields at a redraw: a
`PipelineEvent::Data` frame, `PipelineEvent::EOS`, or a channel error
(`Empty` / `Disconnected`).  The source's `if let Ok(PipelineEvent::Data(frame))`
only acts on the `data` case. -/
inductive RecvResult where
  | data (frame : Frame)
  | eos
  | empty
  | disconnected
deriving DecidableEq, Repr

/-- The winit events the loop handles (`main.rs` 165–196).  A
`RedrawRequested` event carries the environment's responses for that
iteration: the channel outcome and whether surface acquisition succeeds. -/
inductive WinitEvent where
  | CloseRequested
  | Resized (width : Nat) (height : Nat)
  | RedrawRequested (recv : RecvResult) (acquireOk : Bool)
  | AboutToWait
  | Other
deriving DecidableEq, Repr

/-- Observable actions of one loop-body invocation. -/
inductive LoopAction where
  | configureSurface (cfg : SurfaceConfiguration)
  | gpu (a : GpuAction)
  | requestRedraw
  | logReceivedFrame
  | exitLoop
deriving DecidableEq, Repr

/-- Mutable state of the event-loop closure: the `close_requested` flag,
the surface configuration, and the two ways the loop can stop
(`exited` via `elwt.exit()`, `panicked` via the `.expect`). -/
structure LoopState where
  close_requested : Bool
  config : SurfaceConfiguration
  exited : Bool
  panicked : Bool
deriving DecidableEq, Repr

/-- One invocation of the event-loop closure (`main.rs` 163–197) on one
event: returns the updated state and the emitted actions.
`CloseRequested` only sets the flag; `Resized` mutates `config.width`
and `config.height` and reconfigures the surface; `RedrawRequested`
draws (and then requests another redraw and logs) only when the channel
yielded `PipelineEvent::Data`; `AboutToWait` calls `elwt.exit()` when the
flag is set. -/
def step (rs : RenderState) (s : LoopState) (e : WinitEvent) :
    LoopState × List LoopAction :=
  match e with
  | WinitEvent.CloseRequested => ({ s with close_requested := true }, [])
  | WinitEvent.Resized w h =>
      let cfg := { s.config with width := w, height := h }
      ({ s with config := cfg }, [LoopAction.configureSurface cfg])
  | WinitEvent.RedrawRequested recv acquireOk =>
      match recv with
      | RecvResult.data frame =>
          match render_texture frame acquireOk rs with
          | RenderResult.panicked tr =>
              ({ s with panicked := true }, tr.map LoopAction.gpu)
          | RenderResult.skipped tr =>
              (s, tr.map LoopAction.gpu ++
                  [LoopAction.requestRedraw, LoopAction.logReceivedFrame])
          | RenderResult.completed tr =>
              (s, tr.map LoopAction.gpu ++
                  [LoopAction.requestRedraw, LoopAction.logReceivedFrame])
      | _ => (s, [])
  | WinitEvent.AboutToWait =>
      if s.close_requested then ({ s with exited := true }, [LoopAction.exitLoop])
      else (s, [])
  | WinitEvent.Other => (s, [])

/-- Run the loop over an event sequence.  Once the loop has exited (or
the closure panicked) no further event is processed. -/
def runLoop (rs : RenderState) : LoopState → List WinitEvent →
    LoopState × List LoopAction
  | s, [] => (s, [])
  | s, e :: es =>
      if s.exited || s.panicked then (s, [])
      else
        let p1 := step rs s e
        let p2 := runLoop rs p1.1 es
        (p2.1, p1.2 ++ p2.2)

/-- `main.rs` 137–142: probe the surface capabilities for
`TextureFormat::Bgra8UnormSrgb`; `.expect("No suitable surface format found")`
panics when it is absent. -/
def chooseSurfaceFormat (formats : List TextureFormat) :
    Option TextureFormat :=
  formats.find? (fun f => f == TextureFormat.Bgra8UnormSrgb)

/-- sRGB-encoded 8-bit-per-channel surface formats. -/
def isSrgb8BitPerChannel (f : TextureFormat) : Bool :=
  f == TextureFormat.Bgra8UnormSrgb || f == TextureFormat.Rgba8UnormSrgb

/-- The initial `wgpu::SurfaceConfiguration` (`main.rs` 144–153). -/
def initialConfig (format : TextureFormat) (width height : Nat) :
    SurfaceConfiguration :=
  { usage := TextureUsages.RENDER_ATTACHMENT
    format := format
    width := width
    height := height
    present_mode := PresentMode.Fifo
    desired_maximum_frame_latency := 0
    alpha_mode := CompositeAlphaMode.Auto
    view_formats := [] }

/-- Loop state at startup: no close requested, initial configuration. -/
def initState (format : TextureFormat) (width height : Nat) : LoopState :=
  { close_requested := false
    config := initialConfig format width height
    exited := false
    panicked := false }

/-- The presentation part of `main`: select the surface format (a `none`
result models the startup panic, before any loop iteration), build the
render state with the chosen format, and run the event loop. -/
def mainProgram (formats : List TextureFormat) (width height : Nat)
    (events : List WinitEvent) : Option (LoopState × List LoopAction) :=
  match chooseSurfaceFormat formats with
  | none => none
  | some fmt =>
      some (runLoop (create_render_pipeline fmt)
        (initState fmt width height) events)

/-- Recognizer for render-pass openings in a GPU trace. -/
def GpuAction.isBeginRenderPass : GpuAction → Bool
  | GpuAction.beginRenderPass _ _ => true
  | _ => false

/-- Recognizer for bind-group creations in a GPU trace. -/
def GpuAction.isCreateBindGroup : GpuAction → Bool
  | GpuAction.createBindGroup _ _ => true
  | _ => false

/-- Recognizer for draw calls in a GPU trace. -/
def GpuAction.isDraw : GpuAction → Bool
  | GpuAction.draw _ _ => true
  | _ => false

/-- Recognizer for draw calls in a loop-action trace. -/
def LoopAction.isDraw : LoopAction → Bool
  | LoopAction.gpu (GpuAction.draw _ _) => true
  | _ => false

/-! ## Helper lemmas -/

/-- Once the loop has exited or the closure panicked, no further event is
processed. -/
theorem runLoop_stuck (rs : RenderState) (s : LoopState)
    (es : List WinitEvent) (h : s.exited = true ∨ s.panicked = true) :
    runLoop rs s es = (s, []) := by
  cases es with
  | nil => rfl
  | cons e es =>
      have hb : (s.exited || s.panicked) = true := by
        rcases h with h | h <;> simp [h]
      simp [runLoop, hb]

/-- Unfolding one live iteration of the loop. -/
theorem runLoop_cons (rs : RenderState) (s : LoopState) (e : WinitEvent)
    (es : List WinitEvent) (h1 : s.exited = false) (h2 : s.panicked = false) :
    runLoop rs s (e :: es) =
      ((runLoop rs (step rs s e).1 es).1,
       (step rs s e).2 ++ (runLoop rs (step rs s e).1 es).2) := by
  simp [runLoop, h1, h2]

/-! ## Claim theorems -/

/-- C4 counterexample: the sampler built at startup
(`device.create_sampler(&wgpu::SamplerDescriptor::default())`, main.rs 272)
does not have linear filtering — its magnification filter is
`FilterMode::Nearest`, the wgpu default — so the claim that it has linear
filtering is false for the concrete render state the program builds. -/
theorem C4_counterexample :
    (create_render_pipeline TextureFormat.Bgra8UnormSrgb).sampler.mag_filter ≠
      FilterMode.Linear := by decide

/-- C4 (amended): the blit pipeline's sampler, constructed once at startup
from `wgpu::SamplerDescriptor::default()`, has nearest filtering
(magnification, minification and mipmap) and clamp-to-edge addressing on
all three axes, for every surface format the pipeline is built with. -/
theorem C4_sampler_nearest_clamp (surface_format : TextureFormat) :
    (create_render_pipeline surface_format).sampler.mag_filter =
        FilterMode.Nearest ∧
    (create_render_pipeline surface_format).sampler.min_filter =
        FilterMode.Nearest ∧
    (create_render_pipeline surface_format).sampler.mipmap_filter =
        FilterMode.Nearest ∧
    (create_render_pipeline surface_format).sampler.address_mode_u =
        AddressMode.ClampToEdge ∧
    (create_render_pipeline surface_format).sampler.address_mode_v =
        AddressMode.ClampToEdge ∧
    (create_render_pipeline surface_format).sampler.address_mode_w =
        AddressMode.ClampToEdge :=
  ⟨rfl, rfl, rfl, rfl, rfl, rfl⟩

/-- C5: when a frame whose payload is the expected GPU texture is drawn
(surface acquisition succeeding), the draw performs exactly the source's
action sequence: one render pass opened with a clear-then-store color
operation, one transient bind group pairing the frame's texture with the
fixed sampler, one draw call of 3 vertices and 1 instance, and the pass
is closed (`endRenderPass` follows the draw) before submit and present. -/
theorem C5_draw_single_pass_bind_draw (rs : RenderState) (f : Frame)
    (t : Nat) (hf : f.data = FrameData.Rgba8UnormWgpuTexture t) :
    render_texture f true rs = RenderResult.completed
      [GpuAction.createTextureView t,
       GpuAction.createBindGroup t rs.sampler,
       GpuAction.acquireSurfaceTexture,
       GpuAction.createSurfaceView,
       GpuAction.createCommandEncoder,
       GpuAction.beginRenderPass LoadOp.Clear StoreOp.Store,
       GpuAction.setPipeline,
       GpuAction.setBindGroup,
       GpuAction.draw 3 1,
       GpuAction.endRenderPass,
       GpuAction.submit,
       GpuAction.present] ∧
    (render_texture f true rs).trace.countP GpuAction.isBeginRenderPass = 1 ∧
    (render_texture f true rs).trace.countP GpuAction.isCreateBindGroup = 1 ∧
    (render_texture f true rs).trace.countP GpuAction.isDraw = 1 := by
  obtain ⟨d, p⟩ := f
  simp only [Frame.mk.injEq] at hf ⊢
  subst hf
  exact ⟨rfl, rfl, rfl, rfl⟩

/-- C5 witness: the draw effects at a concrete frame. -/
theorem C5_draw_single_pass_bind_draw_witness :
    render_texture ⟨FrameData.Rgba8UnormWgpuTexture 7, 0⟩ true
        (create_render_pipeline TextureFormat.Bgra8UnormSrgb) =
      RenderResult.completed
        [GpuAction.createTextureView 7,
         GpuAction.createBindGroup 7
           (create_render_pipeline TextureFormat.Bgra8UnormSrgb).sampler,
         GpuAction.acquireSurfaceTexture,
         GpuAction.createSurfaceView,
         GpuAction.createCommandEncoder,
         GpuAction.beginRenderPass LoadOp.Clear StoreOp.Store,
         GpuAction.setPipeline,
         GpuAction.setBindGroup,
         GpuAction.draw 3 1,
         GpuAction.endRenderPass,
         GpuAction.submit,
         GpuAction.present] ∧
    (render_texture ⟨FrameData.Rgba8UnormWgpuTexture 7, 0⟩ true
        (create_render_pipeline TextureFormat.Bgra8UnormSrgb)).trace.countP
      GpuAction.isBeginRenderPass = 1 ∧
    (render_texture ⟨FrameData.Rgba8UnormWgpuTexture 7, 0⟩ true
        (create_render_pipeline TextureFormat.Bgra8UnormSrgb)).trace.countP
      GpuAction.isCreateBindGroup = 1 ∧
    (render_texture ⟨FrameData.Rgba8UnormWgpuTexture 7, 0⟩ true
        (create_render_pipeline TextureFormat.Bgra8UnormSrgb)).trace.countP
      GpuAction.isDraw = 1 :=
  C5_draw_single_pass_bind_draw
    (create_render_pipeline TextureFormat.Bgra8UnormSrgb)
    ⟨FrameData.Rgba8UnormWgpuTexture 7, 0⟩ 7 rfl

/-- C10: when the frame payload is not the expected GPU texture,
`render_texture` returns after only logging the mismatch: no surface
image is acquired, no bind group is created, no command submission and no
present occur. -/
theorem C10_malformed_no_gpu_work (rs : RenderState) (f : Frame)
    (acquireOk : Bool)
    (hf : ∀ t, f.data ≠ FrameData.Rgba8UnormWgpuTexture t) :
    render_texture f acquireOk rs = RenderResult.skipped
      [GpuAction.logError "Unexpected frame data format"] ∧
    GpuAction.acquireSurfaceTexture ∉ (render_texture f acquireOk rs).trace ∧
    (∀ t sd, GpuAction.createBindGroup t sd ∉
        (render_texture f acquireOk rs).trace) ∧
    GpuAction.submit ∉ (render_texture f acquireOk rs).trace ∧
    GpuAction.present ∉ (render_texture f acquireOk rs).trace := by
  have hrt : render_texture f acquireOk rs = RenderResult.skipped
      [GpuAction.logError "Unexpected frame data format"] := by
    cases hd : f.data with
    | Rgba8UnormWgpuTexture t => exact absurd hd (hf t)
    | PlanarYuv420 bs => simp [render_texture, hd]
    | InterleavedYuv422 bs => simp [render_texture, hd]
  refine ⟨hrt, ?_, ?_, ?_, ?_⟩ <;> simp [hrt, RenderResult.trace]

/-- C10 witness: a concrete malformed frame performs no GPU work. -/
theorem C10_malformed_no_gpu_work_witness :
    render_texture ⟨FrameData.PlanarYuv420 [1, 2, 3], 5⟩ true
        (create_render_pipeline TextureFormat.Bgra8UnormSrgb) =
      RenderResult.skipped
        [GpuAction.logError "Unexpected frame data format"] ∧
    GpuAction.acquireSurfaceTexture ∉
      (render_texture ⟨FrameData.PlanarYuv420 [1, 2, 3], 5⟩ true
        (create_render_pipeline TextureFormat.Bgra8UnormSrgb)).trace ∧
    (∀ t sd, GpuAction.createBindGroup t sd ∉
      (render_texture ⟨FrameData.PlanarYuv420 [1, 2, 3], 5⟩ true
        (create_render_pipeline TextureFormat.Bgra8UnormSrgb)).trace) ∧
    GpuAction.submit ∉
      (render_texture ⟨FrameData.PlanarYuv420 [1, 2, 3], 5⟩ true
        (create_render_pipeline TextureFormat.Bgra8UnormSrgb)).trace ∧
    GpuAction.present ∉
      (render_texture ⟨FrameData.PlanarYuv420 [1, 2, 3], 5⟩ true
        (create_render_pipeline TextureFormat.Bgra8UnormSrgb)).trace :=
  C10_malformed_no_gpu_work
    (create_render_pipeline TextureFormat.Bgra8UnormSrgb)
    ⟨FrameData.PlanarYuv420 [1, 2, 3], 5⟩ true
    (fun t h => FrameData.noConfusion h)

/-- C3: when a received frame's payload is not the expected GPU texture,
the iteration logs the format mismatch and skips the draw (the only GPU
trace entry is the error log, no draw call occurs), the loop state is
unchanged, the loop does not terminate, and the remaining events are
processed exactly as they would have been without this frame. -/
theorem C3_malformed_frame_logged_and_skipped (rs : RenderState)
    (f : Frame) (acquireOk : Bool) (s : LoopState)
    (rest : List WinitEvent)
    (hf : ∀ t, f.data ≠ FrameData.Rgba8UnormWgpuTexture t)
    (h1 : s.exited = false) (h2 : s.panicked = false) :
    render_texture f acquireOk rs = RenderResult.skipped
      [GpuAction.logError "Unexpected frame data format"] ∧
    (step rs s (WinitEvent.RedrawRequested (RecvResult.data f) acquireOk)).1
      = s ∧
    (step rs s (WinitEvent.RedrawRequested (RecvResult.data f)
        acquireOk)).2.countP LoopAction.isDraw = 0 ∧
    (runLoop rs s (WinitEvent.RedrawRequested (RecvResult.data f) acquireOk
        :: rest)).1 = (runLoop rs s rest).1 ∧
    (runLoop rs s (WinitEvent.RedrawRequested (RecvResult.data f) acquireOk
        :: rest)).2 =
      [LoopAction.gpu (GpuAction.logError "Unexpected frame data format"),
       LoopAction.requestRedraw, LoopAction.logReceivedFrame] ++
      (runLoop rs s rest).2 := by
  have hrt : render_texture f acquireOk rs = RenderResult.skipped
      [GpuAction.logError "Unexpected frame data format"] := by
    cases hd : f.data with
    | Rgba8UnormWgpuTexture t => exact absurd hd (hf t)
    | PlanarYuv420 bs => simp [render_texture, hd]
    | InterleavedYuv422 bs => simp [render_texture, hd]
  have hstep : step rs s
      (WinitEvent.RedrawRequested (RecvResult.data f) acquireOk) =
      (s, [LoopAction.gpu (GpuAction.logError "Unexpected frame data format"),
           LoopAction.requestRedraw, LoopAction.logReceivedFrame]) := by
    simp [step, hrt]
  rw [runLoop_cons rs s _ rest h1 h2, hstep]
  exact ⟨hrt, rfl, rfl, rfl, rfl⟩

/-- C3 witness: a concrete malformed frame followed by another event. -/
theorem C3_malformed_frame_logged_and_skipped_witness :
    render_texture ⟨FrameData.InterleavedYuv422 [9], 1⟩ true
        (create_render_pipeline TextureFormat.Bgra8UnormSrgb) =
      RenderResult.skipped
        [GpuAction.logError "Unexpected frame data format"] ∧
    (step (create_render_pipeline TextureFormat.Bgra8UnormSrgb)
        (initState TextureFormat.Bgra8UnormSrgb 1280 720)
        (WinitEvent.RedrawRequested
          (RecvResult.data ⟨FrameData.InterleavedYuv422 [9], 1⟩) true)).1
      = initState TextureFormat.Bgra8UnormSrgb 1280 720 ∧
    (step (create_render_pipeline TextureFormat.Bgra8UnormSrgb)
        (initState TextureFormat.Bgra8UnormSrgb 1280 720)
        (WinitEvent.RedrawRequested
          (RecvResult.data ⟨FrameData.InterleavedYuv422 [9], 1⟩)
          true)).2.countP LoopAction.isDraw = 0 ∧
    (runLoop (create_render_pipeline TextureFormat.Bgra8UnormSrgb)
        (initState TextureFormat.Bgra8UnormSrgb 1280 720)
        (WinitEvent.RedrawRequested
          (RecvResult.data ⟨FrameData.InterleavedYuv422 [9], 1⟩) true
          :: [WinitEvent.Other])).1 =
      (runLoop (create_render_pipeline TextureFormat.Bgra8UnormSrgb)
        (initState TextureFormat.Bgra8UnormSrgb 1280 720)
        [WinitEvent.Other]).1 ∧
    (runLoop (create_render_pipeline TextureFormat.Bgra8UnormSrgb)
        (initState TextureFormat.Bgra8UnormSrgb 1280 720)
        (WinitEvent.RedrawRequested
          (RecvResult.data ⟨FrameData.InterleavedYuv422 [9], 1⟩) true
          :: [WinitEvent.Other])).2 =
      [LoopAction.gpu (GpuAction.logError "Unexpected frame data format"),
       LoopAction.requestRedraw, LoopAction.logReceivedFrame] ++
      (runLoop (create_render_pipeline TextureFormat.Bgra8UnormSrgb)
        (initState TextureFormat.Bgra8UnormSrgb 1280 720)
        [WinitEvent.Other]).2 :=
  C3_malformed_frame_logged_and_skipped
    (create_render_pipeline TextureFormat.Bgra8UnormSrgb)
    ⟨FrameData.InterleavedYuv422 [9], 1⟩ true
    (initState TextureFormat.Bgra8UnormSrgb 1280 720)
    [WinitEvent.Other]
    (fun t h => FrameData.noConfusion h) rfl rfl

/-- C7: when the channel yields no frame at a redraw opportunity
(`PipelineEvent::EOS`, an empty channel, or a disconnected channel after
the producer closed its end), the iteration emits no action at all — no
GPU command, no surface acquisition, no present — the state is unchanged,
and the loop keeps processing the remaining events instead of exiting. -/
theorem C7_no_frame_is_noop (rs : RenderState) (s : LoopState)
    (recv : RecvResult) (acquireOk : Bool) (rest : List WinitEvent)
    (hr : ∀ f, recv ≠ RecvResult.data f)
    (h1 : s.exited = false) (h2 : s.panicked = false) :
    step rs s (WinitEvent.RedrawRequested recv acquireOk) = (s, []) ∧
    runLoop rs s (WinitEvent.RedrawRequested recv acquireOk :: rest) =
      runLoop rs s rest := by
  have hstep : step rs s (WinitEvent.RedrawRequested recv acquireOk) =
      (s, []) := by
    cases recv with
    | data f => exact absurd rfl (hr f)
    | eos => rfl
    | empty => rfl
    | disconnected => rfl
  refine ⟨hstep, ?_⟩
  rw [runLoop_cons rs s _ rest h1 h2, hstep]
  simp

/-- C7 witness: a disconnected channel (producer closed) at a redraw is a
no-op and the loop continues. -/
theorem C7_no_frame_is_noop_witness :
    step (create_render_pipeline TextureFormat.Bgra8UnormSrgb)
        (initState TextureFormat.Bgra8UnormSrgb 1280 720)
        (WinitEvent.RedrawRequested RecvResult.disconnected true) =
      (initState TextureFormat.Bgra8UnormSrgb 1280 720, []) ∧
    runLoop (create_render_pipeline TextureFormat.Bgra8UnormSrgb)
        (initState TextureFormat.Bgra8UnormSrgb 1280 720)
        (WinitEvent.RedrawRequested RecvResult.disconnected true
          :: [WinitEvent.Other]) =
      runLoop (create_render_pipeline TextureFormat.Bgra8UnormSrgb)
        (initState TextureFormat.Bgra8UnormSrgb 1280 720)
        [WinitEvent.Other] :=
  C7_no_frame_is_noop
    (create_render_pipeline TextureFormat.Bgra8UnormSrgb)
    (initState TextureFormat.Bgra8UnormSrgb 1280 720)
    RecvResult.disconnected true [WinitEvent.Other]
    (fun f h => RecvResult.noConfusion h) rfl rfl

/-- No loop-body invocation changes the format, usage, presentation mode,
alpha mode, view formats or frame-latency fields of the surface
configuration. -/
theorem step_config_fields (rs : RenderState) (s : LoopState)
    (e : WinitEvent) :
    (step rs s e).1.config.format = s.config.format ∧
    (step rs s e).1.config.usage = s.config.usage ∧
    (step rs s e).1.config.present_mode = s.config.present_mode ∧
    (step rs s e).1.config.alpha_mode = s.config.alpha_mode ∧
    (step rs s e).1.config.view_formats = s.config.view_formats ∧
    (step rs s e).1.config.desired_maximum_frame_latency =
      s.config.desired_maximum_frame_latency := by
  cases e with
  | CloseRequested => exact ⟨rfl, rfl, rfl, rfl, rfl, rfl⟩
  | Resized w h => exact ⟨rfl, rfl, rfl, rfl, rfl, rfl⟩
  | RedrawRequested recv acquireOk =>
      cases recv with
      | data f =>
          cases hrt : render_texture f acquireOk rs with
          | skipped tr => simp [step, hrt]
          | panicked tr => simp [step, hrt]
          | completed tr => simp [step, hrt]
      | eos => exact ⟨rfl, rfl, rfl, rfl, rfl, rfl⟩
      | empty => exact ⟨rfl, rfl, rfl, rfl, rfl, rfl⟩
      | disconnected => exact ⟨rfl, rfl, rfl, rfl, rfl, rfl⟩
  | AboutToWait =>
      by_cases hc : s.close_requested <;> simp [step, hc]
  | Other => exact ⟨rfl, rfl, rfl, rfl, rfl, rfl⟩

/-- Running the loop preserves the non-size fields of the surface
configuration. -/
theorem runLoop_config_fields (rs : RenderState) (es : List WinitEvent) :
    ∀ s : LoopState,
    (runLoop rs s es).1.config.format = s.config.format ∧
    (runLoop rs s es).1.config.usage = s.config.usage ∧
    (runLoop rs s es).1.config.present_mode = s.config.present_mode ∧
    (runLoop rs s es).1.config.alpha_mode = s.config.alpha_mode ∧
    (runLoop rs s es).1.config.view_formats = s.config.view_formats ∧
    (runLoop rs s es).1.config.desired_maximum_frame_latency =
      s.config.desired_maximum_frame_latency := by
  induction es with
  | nil => intro s; exact ⟨rfl, rfl, rfl, rfl, rfl, rfl⟩
  | cons e es ih =>
      intro s
      by_cases hb : (s.exited || s.panicked) = true
      · have := runLoop_stuck rs s (e :: es) (by
          rcases Bool.or_eq_true_iff.1 hb with h | h
          · exact Or.inl h
          · exact Or.inr h)
        rw [this]
        exact ⟨rfl, rfl, rfl, rfl, rfl, rfl⟩
      · have h1 : s.exited = false := by
          cases h : s.exited
          · rfl
          · exact absurd (by simp [h]) hb
        have h2 : s.panicked = false := by
          cases h : s.panicked
          · rfl
          · exact absurd (by simp [h]) hb
        rw [runLoop_cons rs s e es h1 h2]
        obtain ⟨i1, i2, i3, i4, i5, i6⟩ := ih (step rs s e).1
        obtain ⟨j1, j2, j3, j4, j5, j6⟩ := step_config_fields rs s e
        exact ⟨i1.trans j1, i2.trans j2, i3.trans j3,
               i4.trans j4, i5.trans j5, i6.trans j6⟩

/-- C9: a resize event replaces the surface configuration by one that
differs only in width and height (then reconfigures the surface with
exactly that configuration), and across every run of the loop the
configuration's format, usage, presentation mode, alpha mode, view
formats and frame-latency keep their startup values from
`initialConfig`. -/
theorem C9_resize_only_width_height (rs : RenderState) (s : LoopState)
    (w h : Nat) (fmt : TextureFormat) (w0 h0 : Nat)
    (es : List WinitEvent) :
    (step rs s (WinitEvent.Resized w h)).1.config =
      { s.config with width := w, height := h } ∧
    (step rs s (WinitEvent.Resized w h)).2 =
      [LoopAction.configureSurface
        { s.config with width := w, height := h }] ∧
    (runLoop rs (initState fmt w0 h0) es).1.config.format = fmt ∧
    (runLoop rs (initState fmt w0 h0) es).1.config.usage =
      TextureUsages.RENDER_ATTACHMENT ∧
    (runLoop rs (initState fmt w0 h0) es).1.config.present_mode =
      PresentMode.Fifo ∧
    (runLoop rs (initState fmt w0 h0) es).1.config.alpha_mode =
      CompositeAlphaMode.Auto ∧
    (runLoop rs (initState fmt w0 h0) es).1.config.view_formats = [] ∧
    (runLoop rs (initState fmt w0 h0) es).1.config.desired_maximum_frame_latency
      = 0 := by
  obtain ⟨i1, i2, i3, i4, i5, i6⟩ :=
    runLoop_config_fields rs es (initState fmt w0 h0)
  exact ⟨rfl, rfl, i1, i2, i3, i4, i5, i6⟩

/-- C8: the surface format is chosen by probing the supported-format list;
selection succeeds exactly when the preferred format `Bgra8UnormSrgb` is
supported, the chosen format is then that sRGB-encoded 8-bit-per-channel
format drawn from the supported list, and when it is absent the program
aborts before the loop starts (`mainProgram` yields no run at all), with
no retry or fallback to another format. -/
theorem C8_surface_format_selection (formats : List TextureFormat)
    (width height : Nat) (events : List WinitEvent) :
    ((chooseSurfaceFormat formats).isSome ↔
      TextureFormat.Bgra8UnormSrgb ∈ formats) ∧
    (∀ f, chooseSurfaceFormat formats = some f →
      f = TextureFormat.Bgra8UnormSrgb ∧ isSrgb8BitPerChannel f = true ∧
      f ∈ formats) ∧
    (TextureFormat.Bgra8UnormSrgb ∉ formats →
      mainProgram formats width height events = none) := by
  have hsel : ∀ f, chooseSurfaceFormat formats = some f →
      f = TextureFormat.Bgra8UnormSrgb ∧ isSrgb8BitPerChannel f = true ∧
      f ∈ formats := by
    intro f hfind
    have hp := List.find?_some hfind
    have hf : f = TextureFormat.Bgra8UnormSrgb := by
      exact eq_of_beq hp
    exact ⟨hf, by rw [hf]; rfl, List.mem_of_find?_eq_some hfind⟩
  have hiff : (chooseSurfaceFormat formats).isSome ↔
      TextureFormat.Bgra8UnormSrgb ∈ formats := by
    constructor
    · intro hs
      obtain ⟨f, hfind⟩ := Option.isSome_iff_exists.1 hs
      obtain ⟨hf, _, hmem⟩ := hsel f hfind
      rw [hf] at hmem
      exact hmem
    · intro hmem
      rw [chooseSurfaceFormat, List.find?_isSome]
      exact ⟨TextureFormat.Bgra8UnormSrgb, hmem, by decide⟩
  refine ⟨hiff, hsel, ?_⟩
  intro hnot
  have hnone : chooseSurfaceFormat formats = none := by
    rcases hopt : chooseSurfaceFormat formats with _ | f
    · rfl
    · obtain ⟨hf, _, hmem⟩ := hsel f hopt
      rw [hf] at hmem
      exact absurd hmem hnot
  simp [mainProgram, hnone]

/-- C8 witness: with a capability list that lacks `Bgra8UnormSrgb`,
startup aborts and the loop never runs; with one that has it, selection
succeeds. -/
theorem C8_surface_format_selection_witness :
    TextureFormat.Bgra8UnormSrgb ∉
      [TextureFormat.Rgba8Unorm, TextureFormat.Rgba16Float] ∧
    mainProgram [TextureFormat.Rgba8Unorm, TextureFormat.Rgba16Float]
      1280 720 [] = none :=
  ⟨by decide,
   (C8_surface_format_selection
      [TextureFormat.Rgba8Unorm, TextureFormat.Rgba16Float]
      1280 720 []).2.2 (by decide)⟩

/-- C1 counterexample: at a concrete redraw where the channel yields a
well-formed frame but surface acquisition fails, the loop terminates via
the `.expect` panic (the loop state becomes `panicked`), and a following
iteration that would have retried acquisition is never processed — the
failure is fatal, not skip-this-iteration. -/
theorem C1_counterexample :
    (runLoop (create_render_pipeline TextureFormat.Bgra8UnormSrgb)
        (initState TextureFormat.Bgra8UnormSrgb 1280 720)
        [WinitEvent.RedrawRequested
           (RecvResult.data ⟨FrameData.Rgba8UnormWgpuTexture 0, 0⟩) false,
         WinitEvent.RedrawRequested
           (RecvResult.data ⟨FrameData.Rgba8UnormWgpuTexture 0, 0⟩)
           true]).1.panicked = true ∧
    (runLoop (create_render_pipeline TextureFormat.Bgra8UnormSrgb)
        (initState TextureFormat.Bgra8UnormSrgb 1280 720)
        [WinitEvent.RedrawRequested
           (RecvResult.data ⟨FrameData.Rgba8UnormWgpuTexture 0, 0⟩) false,
         WinitEvent.RedrawRequested
           (RecvResult.data ⟨FrameData.Rgba8UnormWgpuTexture 0, 0⟩)
           true]).2.countP LoopAction.isDraw = 0 ∧
    GpuAction.present ∉
      ((runLoop (create_render_pipeline TextureFormat.Bgra8UnormSrgb)
        (initState TextureFormat.Bgra8UnormSrgb 1280 720)
        [WinitEvent.RedrawRequested
           (RecvResult.data ⟨FrameData.Rgba8UnormWgpuTexture 0, 0⟩) false,
         WinitEvent.RedrawRequested
           (RecvResult.data ⟨FrameData.Rgba8UnormWgpuTexture 0, 0⟩)
           true]).2.filterMap
        (fun a => match a with
          | LoopAction.gpu g => some g
          | _ => none)) := by
  refine ⟨rfl, rfl, ?_⟩
  decide

/-- C1 (amended): when acquiring the next presentable surface image fails
while drawing a well-formed frame, the failure is fatal rather than
skip-this-iteration: `render_texture` panics after the bind-group
creation and the failed acquisition attempt, the loop enters the
`panicked` terminal condition, every remaining event (including any
retry) is discarded, and the run's whole trace is the pre-panic GPU
actions — containing no draw and no present. -/
theorem C1_acquire_failure_is_fatal (rs : RenderState) (t pts : Nat)
    (s : LoopState) (rest : List WinitEvent)
    (h1 : s.exited = false) (h2 : s.panicked = false) :
    render_texture ⟨FrameData.Rgba8UnormWgpuTexture t, pts⟩ false rs =
      RenderResult.panicked
        [GpuAction.createTextureView t,
         GpuAction.createBindGroup t rs.sampler,
         GpuAction.acquireSurfaceTexture] ∧
    (runLoop rs s (WinitEvent.RedrawRequested
        (RecvResult.data ⟨FrameData.Rgba8UnormWgpuTexture t, pts⟩) false
        :: rest)).1.panicked = true ∧
    (runLoop rs s (WinitEvent.RedrawRequested
        (RecvResult.data ⟨FrameData.Rgba8UnormWgpuTexture t, pts⟩) false
        :: rest)).2 =
      [LoopAction.gpu (GpuAction.createTextureView t),
       LoopAction.gpu (GpuAction.createBindGroup t rs.sampler),
       LoopAction.gpu GpuAction.acquireSurfaceTexture] ∧
    (runLoop rs s (WinitEvent.RedrawRequested
        (RecvResult.data ⟨FrameData.Rgba8UnormWgpuTexture t, pts⟩) false
        :: rest)).2.countP LoopAction.isDraw = 0 := by
  have hstep : step rs s (WinitEvent.RedrawRequested
      (RecvResult.data ⟨FrameData.Rgba8UnormWgpuTexture t, pts⟩) false) =
      ({ s with panicked := true },
       [LoopAction.gpu (GpuAction.createTextureView t),
        LoopAction.gpu (GpuAction.createBindGroup t rs.sampler),
        LoopAction.gpu GpuAction.acquireSurfaceTexture]) := rfl
  rw [runLoop_cons rs s _ rest h1 h2, hstep]
  rw [runLoop_stuck rs { s with panicked := true } rest (Or.inr rfl)]
  exact ⟨rfl, rfl, rfl, rfl⟩

/-- C1 witness: the fatal-acquisition behavior at a concrete frame and a
concrete pending retry event. -/
theorem C1_acquire_failure_is_fatal_witness :
    render_texture ⟨FrameData.Rgba8UnormWgpuTexture 4, 2⟩ false
        (create_render_pipeline TextureFormat.Bgra8UnormSrgb) =
      RenderResult.panicked
        [GpuAction.createTextureView 4,
         GpuAction.createBindGroup 4
           (create_render_pipeline TextureFormat.Bgra8UnormSrgb).sampler,
         GpuAction.acquireSurfaceTexture] ∧
    (runLoop (create_render_pipeline TextureFormat.Bgra8UnormSrgb)
        (initState TextureFormat.Bgra8UnormSrgb 1280 720)
        (WinitEvent.RedrawRequested
          (RecvResult.data ⟨FrameData.Rgba8UnormWgpuTexture 4, 2⟩) false
          :: [WinitEvent.RedrawRequested
               (RecvResult.data ⟨FrameData.Rgba8UnormWgpuTexture 4, 2⟩)
               true])).1.panicked = true ∧
    (runLoop (create_render_pipeline TextureFormat.Bgra8UnormSrgb)
        (initState TextureFormat.Bgra8UnormSrgb 1280 720)
        (WinitEvent.RedrawRequested
          (RecvResult.data ⟨FrameData.Rgba8UnormWgpuTexture 4, 2⟩) false
          :: [WinitEvent.RedrawRequested
               (RecvResult.data ⟨FrameData.Rgba8UnormWgpuTexture 4, 2⟩)
               true])).2 =
      [LoopAction.gpu (GpuAction.createTextureView 4),
       LoopAction.gpu (GpuAction.createBindGroup 4
         (create_render_pipeline TextureFormat.Bgra8UnormSrgb).sampler),
       LoopAction.gpu GpuAction.acquireSurfaceTexture] ∧
    (runLoop (create_render_pipeline TextureFormat.Bgra8UnormSrgb)
        (initState TextureFormat.Bgra8UnormSrgb 1280 720)
        (WinitEvent.RedrawRequested
          (RecvResult.data ⟨FrameData.Rgba8UnormWgpuTexture 4, 2⟩) false
          :: [WinitEvent.RedrawRequested
               (RecvResult.data ⟨FrameData.Rgba8UnormWgpuTexture 4, 2⟩)
               true])).2.countP LoopAction.isDraw = 0 :=
  C1_acquire_failure_is_fatal
    (create_render_pipeline TextureFormat.Bgra8UnormSrgb) 4 2
    (initState TextureFormat.Bgra8UnormSrgb 1280 720)
    [WinitEvent.RedrawRequested
      (RecvResult.data ⟨FrameData.Rgba8UnormWgpuTexture 4, 2⟩) true]
    rfl rfl

/-- C6 counterexample: at a concrete redraw opportunity where the channel
yields a frame with a malformed payload, the handler still requests
another redraw although nothing is drawn — refuting the claim that a
redraw request is issued only when a frame was drawn. -/
theorem C6_counterexample :
    (step (create_render_pipeline TextureFormat.Bgra8UnormSrgb)
        (initState TextureFormat.Bgra8UnormSrgb 1280 720)
        (WinitEvent.RedrawRequested
          (RecvResult.data ⟨FrameData.PlanarYuv420 [], 0⟩) true)).2 =
      [LoopAction.gpu (GpuAction.logError "Unexpected frame data format"),
       LoopAction.requestRedraw, LoopAction.logReceivedFrame] ∧
    LoopAction.requestRedraw ∈
      (step (create_render_pipeline TextureFormat.Bgra8UnormSrgb)
        (initState TextureFormat.Bgra8UnormSrgb 1280 720)
        (WinitEvent.RedrawRequested
          (RecvResult.data ⟨FrameData.PlanarYuv420 [], 0⟩) true)).2 ∧
    (step (create_render_pipeline TextureFormat.Bgra8UnormSrgb)
        (initState TextureFormat.Bgra8UnormSrgb 1280 720)
        (WinitEvent.RedrawRequested
          (RecvResult.data ⟨FrameData.PlanarYuv420 [], 0⟩)
          true)).2.countP LoopAction.isDraw = 0 := by
  refine ⟨rfl, ?_, rfl⟩
  decide

/-- C6 (amended): in the redraw handler, another redraw is requested
exactly when the channel yielded a `Data` frame and the draw routine
returned (it panics instead exactly when the payload is the expected GPU
texture but acquisition fails); the draw may have been skipped for a
malformed payload.  When the yielded frame is well-formed and acquisition
succeeds, the handler's action sequence draws the frame and only then
requests the redraw. -/
theorem C6_redraw_request_iff_data (rs : RenderState) (s : LoopState)
    (recv : RecvResult) (acquireOk : Bool) :
    (LoopAction.requestRedraw ∈
        (step rs s (WinitEvent.RedrawRequested recv acquireOk)).2 ↔
      ((∃ f, recv = RecvResult.data f) ∧
       ¬ ∃ f t, recv = RecvResult.data f ∧
           f.data = FrameData.Rgba8UnormWgpuTexture t ∧
           acquireOk = false)) ∧
    (∀ f t, recv = RecvResult.data f →
      f.data = FrameData.Rgba8UnormWgpuTexture t → acquireOk = true →
      (step rs s (WinitEvent.RedrawRequested recv acquireOk)).2 =
        [LoopAction.gpu (GpuAction.createTextureView t),
         LoopAction.gpu (GpuAction.createBindGroup t rs.sampler),
         LoopAction.gpu GpuAction.acquireSurfaceTexture,
         LoopAction.gpu GpuAction.createSurfaceView,
         LoopAction.gpu GpuAction.createCommandEncoder,
         LoopAction.gpu (GpuAction.beginRenderPass LoadOp.Clear
           StoreOp.Store),
         LoopAction.gpu GpuAction.setPipeline,
         LoopAction.gpu GpuAction.setBindGroup,
         LoopAction.gpu (GpuAction.draw 3 1),
         LoopAction.gpu GpuAction.endRenderPass,
         LoopAction.gpu GpuAction.submit,
         LoopAction.gpu GpuAction.present,
         LoopAction.requestRedraw, LoopAction.logReceivedFrame]) := by
  constructor
  · cases recv with
    | data f =>
        obtain ⟨d, p⟩ := f
        cases d with
        | Rgba8UnormWgpuTexture t =>
            cases acquireOk with
            | false =>
                constructor
                · intro hmem
                  exact absurd hmem (by
                    simp [step, render_texture, List.mem_map])
                · rintro ⟨-, hno⟩
                  exact absurd ⟨⟨FrameData.Rgba8UnormWgpuTexture t, p⟩,
                    t, rfl, rfl, rfl⟩ hno
            | true =>
                constructor
                · intro _
                  refine ⟨⟨⟨FrameData.Rgba8UnormWgpuTexture t, p⟩, rfl⟩, ?_⟩
                  rintro ⟨f, t2, -, -, hfalse⟩
                  exact Bool.noConfusion hfalse
                · intro _
                  simp [step, render_texture]
        | PlanarYuv420 bs =>
            constructor
            · intro _
              refine ⟨⟨⟨FrameData.PlanarYuv420 bs, p⟩, rfl⟩, ?_⟩
              rintro ⟨f, t2, hdata, hform, -⟩
              rw [RecvResult.data.injEq] at hdata
              rw [← hdata] at hform
              exact FrameData.noConfusion hform
            · intro _
              simp [step, render_texture]
        | InterleavedYuv422 bs =>
            constructor
            · intro _
              refine ⟨⟨⟨FrameData.InterleavedYuv422 bs, p⟩, rfl⟩, ?_⟩
              rintro ⟨f, t2, hdata, hform, -⟩
              rw [RecvResult.data.injEq] at hdata
              rw [← hdata] at hform
              exact FrameData.noConfusion hform
            · intro _
              simp [step, render_texture]
    | eos =>
        constructor
        · intro hmem
          exact absurd hmem (by simp [step])
        · rintro ⟨⟨f, hf⟩, -⟩
          exact RecvResult.noConfusion hf
    | empty =>
        constructor
        · intro hmem
          exact absurd hmem (by simp [step])
        · rintro ⟨⟨f, hf⟩, -⟩
          exact RecvResult.noConfusion hf
    | disconnected =>
        constructor
        · intro hmem
          exact absurd hmem (by simp [step])
        · rintro ⟨⟨f, hf⟩, -⟩
          exact RecvResult.noConfusion hf
  · rintro f t hrecv hdata hacq
    subst hrecv
    subst hacq
    obtain ⟨d, p⟩ := f
    simp only at hdata
    subst hdata
    rfl

/-- C6 witness: at a concrete well-formed frame with successful
acquisition, the redraw handler draws and then requests another redraw. -/
theorem C6_redraw_request_iff_data_witness :
    (step (create_render_pipeline TextureFormat.Bgra8UnormSrgb)
        (initState TextureFormat.Bgra8UnormSrgb 1280 720)
        (WinitEvent.RedrawRequested
          (RecvResult.data ⟨FrameData.Rgba8UnormWgpuTexture 3, 0⟩)
          true)).2 =
      [LoopAction.gpu (GpuAction.createTextureView 3),
       LoopAction.gpu (GpuAction.createBindGroup 3
         (create_render_pipeline TextureFormat.Bgra8UnormSrgb).sampler),
       LoopAction.gpu GpuAction.acquireSurfaceTexture,
       LoopAction.gpu GpuAction.createSurfaceView,
       LoopAction.gpu GpuAction.createCommandEncoder,
       LoopAction.gpu (GpuAction.beginRenderPass LoadOp.Clear StoreOp.Store),
       LoopAction.gpu GpuAction.setPipeline,
       LoopAction.gpu GpuAction.setBindGroup,
       LoopAction.gpu (GpuAction.draw 3 1),
       LoopAction.gpu GpuAction.endRenderPass,
       LoopAction.gpu GpuAction.submit,
       LoopAction.gpu GpuAction.present,
       LoopAction.requestRedraw, LoopAction.logReceivedFrame] :=
  (C6_redraw_request_iff_data
      (create_render_pipeline TextureFormat.Bgra8UnormSrgb)
      (initState TextureFormat.Bgra8UnormSrgb 1280 720)
      (RecvResult.data ⟨FrameData.Rgba8UnormWgpuTexture 3, 0⟩) true).2
    ⟨FrameData.Rgba8UnormWgpuTexture 3, 0⟩ 3 rfl rfl rfl

/-- C2 counterexample: processing `CloseRequested` alone sets the flag and
draws nothing, yet a `RedrawRequested` arriving after the close-request
and before the next `AboutToWait` still draws — so a draw call does occur
after a close-request event has been observed, refuting the claim as
stated. -/
theorem C2_counterexample :
    (runLoop (create_render_pipeline TextureFormat.Bgra8UnormSrgb)
        (initState TextureFormat.Bgra8UnormSrgb 1280 720)
        [WinitEvent.CloseRequested]).1.close_requested = true ∧
    (runLoop (create_render_pipeline TextureFormat.Bgra8UnormSrgb)
        (initState TextureFormat.Bgra8UnormSrgb 1280 720)
        [WinitEvent.CloseRequested]).2.countP LoopAction.isDraw = 0 ∧
    (runLoop (create_render_pipeline TextureFormat.Bgra8UnormSrgb)
        (initState TextureFormat.Bgra8UnormSrgb 1280 720)
        [WinitEvent.CloseRequested,
         WinitEvent.RedrawRequested
           (RecvResult.data ⟨FrameData.Rgba8UnormWgpuTexture 0, 0⟩) true,
         WinitEvent.AboutToWait]).2.countP LoopAction.isDraw = 1 ∧
    (runLoop (create_render_pipeline TextureFormat.Bgra8UnormSrgb)
        (initState TextureFormat.Bgra8UnormSrgb 1280 720)
        [WinitEvent.CloseRequested,
         WinitEvent.RedrawRequested
           (RecvResult.data ⟨FrameData.Rgba8UnormWgpuTexture 0, 0⟩) true,
         WinitEvent.AboutToWait]).1.exited = true := by
  refine ⟨rfl, rfl, ?_, rfl⟩
  decide

/-- Each loop-body invocation from a non-exited state either leaves the
loop running and emits no exit action, or transitions to the exited state
and emits exactly the exit action. -/
theorem step_exit_cases (rs : RenderState) (s : LoopState) (e : WinitEvent)
    (h : s.exited = false) :
    ((step rs s e).1.exited = false ∧
      LoopAction.exitLoop ∉ (step rs s e).2) ∨
    ((step rs s e).1.exited = true ∧
      (step rs s e).2 = [LoopAction.exitLoop]) := by
  cases e with
  | CloseRequested => exact Or.inl ⟨h, by simp [step]⟩
  | Resized w hh => exact Or.inl ⟨h, by simp [step]⟩
  | RedrawRequested recv acquireOk =>
      cases recv with
      | data f =>
          cases hrt : render_texture f acquireOk rs with
          | skipped tr =>
              refine Or.inl ⟨?_, ?_⟩
              · simp [step, hrt, h]
              · simp [step, hrt, List.mem_map]
          | panicked tr =>
              refine Or.inl ⟨?_, ?_⟩
              · simp [step, hrt, h]
              · simp [step, hrt, List.mem_map]
          | completed tr =>
              refine Or.inl ⟨?_, ?_⟩
              · simp [step, hrt, h]
              · simp [step, hrt, List.mem_map]
      | eos => exact Or.inl ⟨h, by simp [step]⟩
      | empty => exact Or.inl ⟨h, by simp [step]⟩
      | disconnected => exact Or.inl ⟨h, by simp [step]⟩
  | AboutToWait =>
      by_cases hc : s.close_requested
      · exact Or.inr ⟨by simp [step, hc], by simp [step, hc]⟩
      · exact Or.inl ⟨by simp [step, hc, h], by simp [step, hc]⟩
  | Other => exact Or.inl ⟨h, by simp [step]⟩

/-- C2 (amended): in every run from a non-exited state, either the loop
never reaches the terminal state and never emits the exit action, or it
reaches the terminal state and the exit action is the final element of
the run's action trace and occurs nowhere else — so the terminal state is
reached exactly once and no draw call (indeed no action at all) occurs
after the exit transition; before that transition, a redraw arriving
between the close-request and the next `AboutToWait` may still draw. -/
theorem C2_exit_terminal_once (rs : RenderState) (es : List WinitEvent)
    (s : LoopState) (h : s.exited = false) :
    ((runLoop rs s es).1.exited = false ∧
      LoopAction.exitLoop ∉ (runLoop rs s es).2) ∨
    ((runLoop rs s es).1.exited = true ∧
      ∃ tr0, (runLoop rs s es).2 = tr0 ++ [LoopAction.exitLoop] ∧
        LoopAction.exitLoop ∉ tr0) := by
  induction es generalizing s with
  | nil => exact Or.inl ⟨h, by simp [runLoop]⟩
  | cons e es ih =>
      by_cases hp : s.panicked = true
      · rw [runLoop_stuck rs s (e :: es) (Or.inr hp)]
        exact Or.inl ⟨h, by simp⟩
      · have hp2 : s.panicked = false := by
          cases hpp : s.panicked
          · rfl
          · exact absurd hpp hp
        rw [runLoop_cons rs s e es h hp2]
        rcases step_exit_cases rs s e h with ⟨h1, h2⟩ | ⟨h1, h2⟩
        · rcases ih (step rs s e).1 h1 with ⟨g1, g2⟩ | ⟨g1, g2⟩
          · refine Or.inl ⟨g1, ?_⟩
            intro hmem
            rcases List.mem_append.1 hmem with hm | hm
            · exact h2 hm
            · exact g2 hm
          · obtain ⟨tr0, htr, hnm⟩ := g2
            refine Or.inr ⟨g1, (step rs s e).2 ++ tr0, ?_, ?_⟩
            · rw [htr, List.append_assoc]
            · intro hmem
              rcases List.mem_append.1 hmem with hm | hm
              · exact h2 hm
              · exact hnm hm
        · rw [runLoop_stuck rs (step rs s e).1 es (Or.inl h1)]
          refine Or.inr ⟨h1, [], ?_, by simp⟩
          rw [h2]
          rfl

/-- C2 witness: a concrete run in which the close-request is followed by
an `AboutToWait` reaches the terminal state with the exit action last and
unique in the trace. -/
theorem C2_exit_terminal_once_witness :
    ((runLoop (create_render_pipeline TextureFormat.Bgra8UnormSrgb)
        (initState TextureFormat.Bgra8UnormSrgb 1280 720)
        [WinitEvent.CloseRequested, WinitEvent.AboutToWait,
         WinitEvent.Other]).1.exited = false ∧
      LoopAction.exitLoop ∉
        (runLoop (create_render_pipeline TextureFormat.Bgra8UnormSrgb)
          (initState TextureFormat.Bgra8UnormSrgb 1280 720)
          [WinitEvent.CloseRequested, WinitEvent.AboutToWait,
           WinitEvent.Other]).2) ∨
    ((runLoop (create_render_pipeline TextureFormat.Bgra8UnormSrgb)
        (initState TextureFormat.Bgra8UnormSrgb 1280 720)
        [WinitEvent.CloseRequested, WinitEvent.AboutToWait,
         WinitEvent.Other]).1.exited = true ∧
      ∃ tr0,
        (runLoop (create_render_pipeline TextureFormat.Bgra8UnormSrgb)
          (initState TextureFormat.Bgra8UnormSrgb 1280 720)
          [WinitEvent.CloseRequested, WinitEvent.AboutToWait,
           WinitEvent.Other]).2 = tr0 ++ [LoopAction.exitLoop] ∧
        LoopAction.exitLoop ∉ tr0) :=
  C2_exit_terminal_once
    (create_render_pipeline TextureFormat.Bgra8UnormSrgb)
    [WinitEvent.CloseRequested, WinitEvent.AboutToWait, WinitEvent.Other]
    (initState TextureFormat.Bgra8UnormSrgb 1280 720) rfl

end QueueStopping
